import Mathlib

/-!
Shallow embedding of the restim remote-control protocol subsystem
(src/net/webserver/protocol.py, auth.py, handlers.py, server.py and
src/net/remote_control.py) together with proofs about the behaviour
claimed by the specification.

Conventions used throughout:
* Python floats are modelled as exact rationals (ℚ).
* JSON values are modelled by the inductive `Json` below; the textual
  serialisation layer (`json.dumps` / `json.loads`) is modelled as the
  identity on structured values, with `Option Json` used where the raw
  text may fail to parse (`none` = `json.JSONDecodeError`).
* Python exceptions are explicit: fallible conversions return `Option`,
  and handler results carry an `exn : Option String` recording an
  exception escaping the handler body.
-/

namespace Restim

/-- JSON values (the result of Python's `json.loads`).  Python's int/float
distinction is collapsed into a single rational number constructor. -/
inductive Json where
  | null : Json
  | bool (b : Bool) : Json
  | num (q : ℚ) : Json
  | str (s : String) : Json
  | arr (l : List Json) : Json
  | obj (l : List (String × Json)) : Json
deriving Repr

/-- Python dict lookup `d.get(k)` over the association list of a JSON
object.  Later duplicate keys override earlier ones, as in `json.loads`. -/
def dictGet (l : List (String × Json)) (k : String) : Option Json :=
  l.foldl (fun acc kv => if kv.1 = k then some kv.2 else acc) none

/-- `MessageType` enum from src/net/webserver/protocol.py. -/
inductive MessageType where
  -- Client -> Server (Commands)
  | GET_STATE | SET_POSITION | SET_VOLUME | SET_CARRIER | SET_PULSE_PARAMS
  | SET_VIBRATION | SET_PATTERN | SET_CALIBRATION | PLAY | STOP
  -- Server -> Client (Events)
  | STATE_UPDATE | POSITION_UPDATE | VOLUME_UPDATE | PLAY_STATE_UPDATE
  | CARRIER_UPDATE | PULSE_UPDATE | PATTERN_UPDATE | VIBRATION_UPDATE
  | ERROR | CONNECTED
deriving DecidableEq, Repr

/-- The string value of each enum member. -/
def MessageType.value : MessageType → String
  | .GET_STATE => "get_state"
  | .SET_POSITION => "set_position"
  | .SET_VOLUME => "set_volume"
  | .SET_CARRIER => "set_carrier"
  | .SET_PULSE_PARAMS => "set_pulse_params"
  | .SET_VIBRATION => "set_vibration"
  | .SET_PATTERN => "set_pattern"
  | .SET_CALIBRATION => "set_calibration"
  | .PLAY => "play"
  | .STOP => "stop"
  | .STATE_UPDATE => "state_update"
  | .POSITION_UPDATE => "position_update"
  | .VOLUME_UPDATE => "volume_update"
  | .PLAY_STATE_UPDATE => "play_state_update"
  | .CARRIER_UPDATE => "carrier_update"
  | .PULSE_UPDATE => "pulse_update"
  | .PATTERN_UPDATE => "pattern_update"
  | .VIBRATION_UPDATE => "vibration_update"
  | .ERROR => "error"
  | .CONNECTED => "connected"

/-- The enum constructor call `MessageType(s)` on a string: returns the
member with that value, or fails (`ValueError`) if there is none. -/
def MessageType.ofValue? : String → Option MessageType
  | "get_state" => some .GET_STATE
  | "set_position" => some .SET_POSITION
  | "set_volume" => some .SET_VOLUME
  | "set_carrier" => some .SET_CARRIER
  | "set_pulse_params" => some .SET_PULSE_PARAMS
  | "set_vibration" => some .SET_VIBRATION
  | "set_pattern" => some .SET_PATTERN
  | "set_calibration" => some .SET_CALIBRATION
  | "play" => some .PLAY
  | "stop" => some .STOP
  | "state_update" => some .STATE_UPDATE
  | "position_update" => some .POSITION_UPDATE
  | "volume_update" => some .VOLUME_UPDATE
  | "play_state_update" => some .PLAY_STATE_UPDATE
  | "carrier_update" => some .CARRIER_UPDATE
  | "pulse_update" => some .PULSE_UPDATE
  | "pattern_update" => some .PATTERN_UPDATE
  | "vibration_update" => some .VIBRATION_UPDATE
  | "error" => some .ERROR
  | "connected" => some .CONNECTED
  | _ => none

/-- `MessageType(value)` applied to an arbitrary JSON value: non-string
values never equal a member of this `str`-valued enum, so they raise
`ValueError` (modelled as `none`). -/
def MessageType.ofJson? : Json → Option MessageType
  | .str s => MessageType.ofValue? s
  | _ => none


/-- The `Message` dataclass.  After `__post_init__` the timestamp is never
`None`; it may still be an arbitrary JSON value because `from_json` stores
`obj.get("timestamp")` without validation. -/
structure Message where
  type : MessageType
  payload : Json
  timestamp : Json
deriving Repr

/-- `__post_init__`: a timestamp of `None` (absent key, or JSON `null`) is
replaced by the construction-time clock value `now`. -/
def postInitTimestamp (ts : Option Json) (now : ℚ) : Json :=
  match ts with
  | none => .num now
  | some .null => .num now
  | some v => v

/-- `Message.to_json`: the serialised JSON object (text layer modelled as
the identity on structured values).  `self.type` is always a
`MessageType` here, so its `.value` string is emitted. -/
def Message.toJson (m : Message) : Json :=
  .obj [("type", .str m.type.value), ("payload", m.payload),
        ("timestamp", m.timestamp)]

/-- Which Python exception class escapes `Message.from_json`:
`invalidMessage` is the `InvalidMessageException` raised by the
`except (json.JSONDecodeError, KeyError, ValueError)` clause; `typeError`
is the uncaught `TypeError` raised by `obj["type"]` when the parsed JSON
document is not an object. -/
inductive DecodeErr where
  | invalidMessage
  | typeError
deriving DecidableEq, Repr

/-- `Message.from_json`.  The input is the result of `json.loads` on the
raw text (`none` = the text was not valid JSON, i.e. `JSONDecodeError`).
`now` is the clock value used by `__post_init__` for a missing timestamp. -/
def Message.fromJson (raw : Option Json) (now : ℚ) : Except DecodeErr Message :=
  match raw with
  | none => .error .invalidMessage
  | some j =>
    match j with
    | .obj d =>
      match dictGet d "type" with
      | none => .error .invalidMessage         -- KeyError on obj["type"]
      | some tv =>
        match MessageType.ofJson? tv with
        | none => .error .invalidMessage       -- ValueError from MessageType(...)
        | some t =>
          .ok { type := t,
                payload := (dictGet d "payload").getD (.obj []),
                timestamp := postInitTimestamp (dictGet d "timestamp") now }
    | _ => .error .typeError                   -- obj["type"] on a non-dict

/-! ## src/net/webserver/auth.py -/

/-- `s.startswith(pat)` over characters (`startsWithChars pat s`). -/
def startsWithChars : List Char → List Char → Bool
  | [], _ => true
  | _ :: _, [] => false
  | a :: ps, b :: cs => a == b && startsWithChars ps cs

/-- Value of a character in the standard base64 alphabet. -/
def b64Value? (c : Char) : Option ℕ :=
  if 'A' ≤ c ∧ c ≤ 'Z' then some (c.toNat - 'A'.toNat)
  else if 'a' ≤ c ∧ c ≤ 'z' then some (c.toNat - 'a'.toNat + 26)
  else if '0' ≤ c ∧ c ≤ '9' then some (c.toNat - '0'.toNat + 52)
  else if c = '+' then some 62
  else if c = '/' then some 63
  else none

/-- Decode base64 quads (after filtering) into bytes.  `=` padding is
accepted only at the end of the final quad; a trailing group of fewer than
four characters is `binascii.Error` (`none`). -/
def b64Quads : List Char → Option (List ℕ)
  | [] => some []
  | a :: b :: c :: d :: rest => do
    let va ← b64Value? a
    let vb ← b64Value? b
    if c = '=' then
      if d = '=' ∧ rest = [] then some [va * 4 + vb / 16] else none
    else do
      let vc ← b64Value? c
      if d = '=' then
        if rest = [] then some [va * 4 + vb / 16, (vb % 16) * 16 + vc / 4]
        else none
      else do
        let vd ← b64Value? d
        let n := va * 262144 + vb * 4096 + vc * 64 + vd
        let tail ← b64Quads rest
        some ([n / 65536, n / 256 % 256, n % 256] ++ tail)
  | _ => none

/-- `base64.b64decode(s)` (validate=False): non-ASCII input fails while
encoding to bytes; characters outside the alphabet and `=` are discarded;
the remainder is decoded in quads.  (CPython tolerates some garbage
placements of `=` that this model rejects; no claim depends on those.) -/
def b64decode? (s : String) : Option (List ℕ) :=
  if s.data.all (fun c => c.toNat < 128) then
    b64Quads (s.data.filter (fun c => (b64Value? c).isSome || c = '='))
  else none

/-- `bytes.decode('utf-8')` (strict): rejects invalid sequences,
surrogates and overlong encodings. -/
def utf8ToStr? (l : List ℕ) : Option String :=
  String.fromUTF8? ⟨⟨l.map (fun n => UInt8.ofNat n)⟩⟩

/-- The `try:` block of `check_basic_auth`: `none` models an exception
reaching the `except Exception` clause. -/
def basicAuthTry (authTail username password : String) : Option Bool := do
  let bytes ← b64decode? authTail
  let credentials ← utf8ToStr? bytes
  -- provided_user, provided_pass = credentials.split(':', 1)
  -- (unpacking raises ValueError when the string contains no ':')
  match credentials.splitOn ":" with
  | [_] => none
  | u :: rest =>
    some (decide (u = username) && decide (String.intercalate ":" rest = password))
  | [] => none   -- unreachable: splitOn never returns []

/-- `check_basic_auth` from src/net/webserver/auth.py. -/
def check_basic_auth (auth_header username password : String) : Bool :=
  if password = "" then true                       -- `if not password`
  else if auth_header = "" ∨ ¬ startsWithChars "Basic ".data auth_header.data
    then false
  else
    match basicAuthTry (auth_header.drop 6) username password with
    | some b => b
    | none => false                                -- `except Exception: return False`

/-! ## src/qt_ui/mainwindow.py (state owner, as seen through the handlers)

The handlers read and write Qt widgets of the main window.  Each widget
value touched by src/net/webserver/handlers.py becomes a field of
`MWState`.  Widget-internal behaviour that lives outside src/ (slider
range clamping, slider → axis signal propagation) is modelled as a plain
stored value; no claim depends on it.  `signal_start` / `signal_stop` are
owner-side operations whose invocation is recorded in an event list; their
internal effects (device startup etc.) are outside the modelled boundary. -/

inductive PlayState where
  | STOPPED | PLAYING | WAITING_ON_LOAD
deriving DecidableEq, Repr

def PlayState.name : PlayState → String
  | .STOPPED => "STOPPED"
  | .PLAYING => "PLAYING"
  | .WAITING_ON_LOAD => "WAITING_ON_LOAD"

/-- Calls into the state owner recorded by the dispatcher. -/
inductive OwnerCall where
  | signalStart
  | signalStop (newState : PlayState)
deriving DecidableEq, Repr

/-- One vibration channel's widget group (enable checkbox + five sliders). -/
structure VibChannel where
  enabled : Bool
  frequency : ℚ
  strength : ℚ
  leftRightBias : ℚ
  highLowBias : ℚ
  random : ℚ
deriving DecidableEq, Repr

/-- Main-window state visible to the WebSocket handlers. -/
structure MWState where
  playstate : PlayState
  -- temporal axes (last added value)
  alphaLast : ℚ
  betaLast : ℚ
  gammaLast : ℚ
  -- volume widgets
  volume : ℚ             -- doubleSpinBox_volume
  volumeEffective : ℚ    -- tab_volume.axis_master_volume.last_value()
  -- carrier widgets
  carrier : ℚ            -- tab_carrier.carrier
  -- pulse settings widgets
  pulseCarrier : ℚ
  pulseFrequency : ℚ
  pulseWidth : ℚ
  pulseRiseTime : ℚ
  pulseIntervalRandom : ℚ
  -- vibration widgets
  vib1 : VibChannel
  vib2 : VibChannel
  -- pattern widgets
  patterns : List String -- comboBox_patternSelect items
  patternIndex : ℕ       -- comboBox_patternSelect current index
  patternVelocity : ℚ    -- doubleSpinBox
  -- calibration widgets
  calNeutral : ℚ
  calRight : ℚ
  calCenter : ℚ
  fpA : ℚ
  fpB : ℚ
  fpC : ℚ
  fpD : ℚ
  fpCenter : ℚ
  transformEnabled : ℚ
  transformRotation : ℚ
  transformMirror : ℚ
  -- device descriptor (DeviceConfiguration.from_settings())
  deviceType : String
  waveformType : String

/-! ## Python conversion semantics used by the handlers -/

/-- `float(x)` on a JSON-decoded value: numbers pass through, booleans
become 0/1, everything else raises (modelled as `none`).  Python would
also parse numeric *strings*; claims only involve numeric payloads, and
string parsing (incl. inf/nan) is not modelled. -/
def pyFloat? : Json → Option ℚ
  | .num q => some q
  | .bool b => some (if b then 1 else 0)
  | _ => none

/-- `bool(x)` on a JSON-decoded value (truthiness). -/
def pyTruthy : Json → Bool
  | .null => false
  | .bool b => b
  | .num q => decide (q ≠ 0)
  | .str s => decide (s ≠ "")
  | .arr l => !l.isEmpty
  | .obj l => !l.isEmpty

/-- Python `==` between a JSON-decoded value and an integer literal
(`True == 1` and `1.0 == 1` are both true in Python). -/
def pyEqNum (v : Json) (n : ℚ) : Bool :=
  match v with
  | .num q => decide (q = n)
  | .bool b => decide ((if b then (1 : ℚ) else 0) = n)
  | _ => false

/-- Python `str(x)` for a JSON-decoded value, used only in ERROR message
text (Python's int/float display distinction is collapsed: integral
numbers render without a fractional part; no claim inspects this text). -/
def pyStr : Json → String
  | .null => "None"
  | .bool b => if b then "True" else "False"
  | .num q => if q.den = 1 then toString q.num else toString q
  | .str s => s
  | .arr _ => "[...]"
  | .obj _ => "{...}"

/-! ## src/net/webserver/handlers.py -/

/-- Result of running one handler body: the (possibly partially mutated)
window state, the returned response, the recorded state-owner calls, and
the exception escaping the body, if any.  Non-object payloads raise on
the first `payload.get` / `in payload` operation and are modelled
uniformly as an exception (for list/str payloads Python's `in` would be a
membership test instead; no claim involves such payloads). -/
structure HRes where
  st : MWState
  response : Option Message
  calls : List OwnerCall
  exn : Option String

/-- Apply `float()`-converted fields in source order: for each
`(key, setter)` pair, if the key is present the converted value is passed
to the setter; a conversion failure raises, keeping the fields already
applied (the source performs no rollback). -/
def applyFloatFields (d : List (String × Json)) :
    List (String × (MWState → ℚ → MWState)) → MWState → MWState × Option String
  | [], st => (st, none)
  | (k, f) :: rest, st =>
    match dictGet d k with
    | none => applyFloatFields d rest st
    | some v =>
      match pyFloat? v with
      | none => (st, some ("could not convert to float: " ++ pyStr v))
      | some x => applyFloatFields d rest (f st x)

/-- `_handle_set_position`: each provided axis is clamped with
`max(-1.0, min(1.0, float(...)))` and stored via `axis.add(value, interval)`. -/
def handle_set_position (payload : Json) (st : MWState) : HRes :=
  match payload with
  | .obj d =>
    -- interval = payload.get("interval", 0.1): forwarded to axis.add,
    -- not otherwise observable in the modelled state
    let (st', e) := applyFloatFields d
      [("alpha", fun s x => {s with alphaLast := max (-1) (min 1 x)}),
       ("beta",  fun s x => {s with betaLast  := max (-1) (min 1 x)}),
       ("gamma", fun s x => {s with gammaLast := max (-1) (min 1 x)})] st
    ⟨st', none, [], e⟩
  | _ => ⟨st, none, [], some "TypeError"⟩

/-- `_handle_set_volume`: clamps with `max(0.0, min(100.0, float(...)))`. -/
def handle_set_volume (payload : Json) (st : MWState) : HRes :=
  match payload with
  | .obj d =>
    let (st', e) := applyFloatFields d
      [("value", fun s x => {s with volume := max 0 (min 100 x)})] st
    ⟨st', none, [], e⟩
  | _ => ⟨st, none, [], some "TypeError"⟩

/-- `_handle_set_carrier`: one frequency value applied to both the carrier
tab and the pulse-settings tab. -/
def handle_set_carrier (payload : Json) (st : MWState) : HRes :=
  match payload with
  | .obj d =>
    let (st', e) := applyFloatFields d
      [("frequency", fun s x => {s with carrier := x, pulseCarrier := x})] st
    ⟨st', none, [], e⟩
  | _ => ⟨st, none, [], some "TypeError"⟩

/-- `_handle_set_pulse_params`: five optional float fields in source order. -/
def handle_set_pulse_params (payload : Json) (st : MWState) : HRes :=
  match payload with
  | .obj d =>
    let (st', e) := applyFloatFields d
      [("carrier",        fun s x => {s with pulseCarrier := x}),
       ("frequency",      fun s x => {s with pulseFrequency := x}),
       ("width",          fun s x => {s with pulseWidth := x}),
       ("riseTime",       fun s x => {s with pulseRiseTime := x}),
       ("intervalRandom", fun s x => {s with pulseIntervalRandom := x})] st
    ⟨st', none, [], e⟩
  | _ => ⟨st, none, [], some "TypeError"⟩

/-- `_handle_set_vibration`: selects the channel's widget group from
`payload.get("channel", 1)`; any other channel value yields an ERROR
response with no parameter change. -/
def handle_set_vibration (now : ℚ) (payload : Json) (st : MWState) : HRes :=
  match payload with
  | .obj d =>
    let channel := (dictGet d "channel").getD (.num 1)
    let runChannel (upd : MWState → (VibChannel → VibChannel) → MWState) : HRes :=
      let st1 :=
        match dictGet d "enabled" with
        | some v => upd st (fun ch => {ch with enabled := pyTruthy v})
        | none => st
      let (st2, e) := applyFloatFields d
        [("frequency",     fun s x => upd s (fun ch => {ch with frequency := x})),
         ("strength",      fun s x => upd s (fun ch => {ch with strength := x})),
         ("leftRightBias", fun s x => upd s (fun ch => {ch with leftRightBias := x})),
         ("highLowBias",   fun s x => upd s (fun ch => {ch with highLowBias := x})),
         ("random",        fun s x => upd s (fun ch => {ch with random := x}))] st1
      ⟨st2, none, [], e⟩
    if pyEqNum channel 1 then runChannel (fun s f => {s with vib1 := f s.vib1})
    else if pyEqNum channel 2 then runChannel (fun s f => {s with vib2 := f s.vib2})
    else ⟨st, some ⟨.ERROR,
      .obj [("error", .str ("Invalid vibration channel: " ++ pyStr channel))],
      .num now⟩, [], none⟩
  | _ => ⟨st, none, [], some "AttributeError"⟩

/-- `_handle_set_pattern`: an unknown name returns an ERROR before the
velocity field is considered; a known name selects its combo-box index;
velocity is floored at 0.1. -/
def handle_set_pattern (now : ℚ) (payload : Json) (st : MWState) : HRes :=
  match payload with
  | .obj d =>
    let velocityStep (s : MWState) : HRes :=
      let (s', e) := applyFloatFields d
        [("velocity", fun s x => {s with patternVelocity := max 0.1 x})] s
      ⟨s', none, [], e⟩
    match dictGet d "name" with
    | some (.str name) =>
      match st.patterns.findIdx? (fun p => p == name) with
      | some i => velocityStep {st with patternIndex := i}
      | none => ⟨st, some ⟨.ERROR,
          .obj [("error", .str ("Unknown pattern: " ++ name))], .num now⟩, [], none⟩
    | some _ => ⟨st, none, [], some "TypeError"⟩   -- findText with a non-string
    | none => velocityStep st
  | _ => ⟨st, none, [], some "TypeError"⟩

/-- `_handle_set_calibration`: two optional nested objects of float fields. -/
def handle_set_calibration (payload : Json) (st : MWState) : HRes :=
  match payload with
  | .obj d =>
    let threephase (s : MWState) : MWState × Option String :=
      match dictGet d "threephase" with
      | some (.obj td) => applyFloatFields td
          [("neutral", fun s x => {s with calNeutral := x}),
           ("right",   fun s x => {s with calRight := x}),
           ("center",  fun s x => {s with calCenter := x})] s
      | some _ => (s, some "TypeError")
      | none => (s, none)
    let fourphase (s : MWState) : MWState × Option String :=
      match dictGet d "fourphase" with
      | some (.obj fd) => applyFloatFields fd
          [("a", fun s x => {s with fpA := x}),
           ("b", fun s x => {s with fpB := x}),
           ("c", fun s x => {s with fpC := x}),
           ("d", fun s x => {s with fpD := x}),
           ("center", fun s x => {s with fpCenter := x})] s
      | some _ => (s, some "TypeError")
      | none => (s, none)
    match threephase st with
    | (s1, some e) => ⟨s1, none, [], some e⟩
    | (s1, none) =>
      let (s2, e) := fourphase s1
      ⟨s2, none, [], e⟩
  | _ => ⟨st, none, [], some "TypeError"⟩

/-- JSON view of one vibration channel inside `get_full_state`. -/
def vibJson (v : VibChannel) : Json :=
  .obj [("enabled", .bool v.enabled),
        ("frequency", .num v.frequency),
        ("strength", .num (v.strength * 100)),
        ("leftRightBias", .num (v.leftRightBias * 100)),
        ("highLowBias", .num (v.highLowBias * 100)),
        ("random", .num (v.random * 100))]

/-- `get_full_state`: the full application state dict. -/
def get_full_state (st : MWState) : Json :=
  .obj [
    ("playState", .str st.playstate.name),
    ("position", .obj [("alpha", .num st.alphaLast), ("beta", .num st.betaLast),
                       ("gamma", .num st.gammaLast)]),
    ("volume", .obj [("master", .num st.volume),
                     ("effective", .num (st.volumeEffective * 100))]),
    ("carrier", .num st.carrier),
    ("pulse", .obj [("carrier", .num st.pulseCarrier),
                    ("frequency", .num st.pulseFrequency),
                    ("width", .num st.pulseWidth),
                    ("riseTime", .num st.pulseRiseTime),
                    ("intervalRandom", .num st.pulseIntervalRandom)]),
    ("vibration", .obj [("vibration1", vibJson st.vib1),
                        ("vibration2", vibJson st.vib2)]),
    ("pattern", .obj [("name", .str (st.patterns.getD st.patternIndex "")),
                      ("velocity", .num st.patternVelocity),
                      ("available", .arr (st.patterns.map .str))]),
    ("calibration", .obj [
      ("threephase", .obj [("neutral", .num st.calNeutral),
                           ("right", .num st.calRight),
                           ("center", .num st.calCenter)]),
      ("fourphase", .obj [("a", .num st.fpA), ("b", .num st.fpB),
                          ("c", .num st.fpC), ("d", .num st.fpD),
                          ("center", .num st.fpCenter)]),
      ("transform", .obj [("enabled", .num st.transformEnabled),
                          ("rotation", .num st.transformRotation),
                          ("mirror", .num st.transformMirror)])]),
    ("device", .obj [("type", .str st.deviceType),
                     ("waveformType", .str st.waveformType)])]

/-- `_handle_get_state`: returns STATE_UPDATE with the full state. -/
def handle_get_state (now : ℚ) (st : MWState) : HRes :=
  ⟨st, some ⟨.STATE_UPDATE, get_full_state st, .num now⟩, [], none⟩

/-- `_handle_play`: calls `signal_start()` only when the play state is
STOPPED; the payload is never inspected. -/
def handle_play (st : MWState) : HRes :=
  if st.playstate = PlayState.STOPPED then ⟨st, none, [.signalStart], none⟩
  else ⟨st, none, [], none⟩

/-- `_handle_stop`: calls `signal_stop(PlayState.STOPPED)` unless already
STOPPED. -/
def handle_stop (st : MWState) : HRes :=
  if st.playstate ≠ PlayState.STOPPED then ⟨st, none, [.signalStop .STOPPED], none⟩
  else ⟨st, none, [], none⟩

/-- `WebSocketHandler.handle_message`: fixed dispatch table; an exception
escaping a handler is caught and converted to an ERROR response carrying
the failure text (the partially mutated state stands — no rollback). -/
def handle_message (now : ℚ) (m : Message) (st : MWState) : HRes :=
  let res : HRes :=
    match m.type with
    | .GET_STATE => handle_get_state now st
    | .SET_POSITION => handle_set_position m.payload st
    | .SET_VOLUME => handle_set_volume m.payload st
    | .SET_CARRIER => handle_set_carrier m.payload st
    | .SET_PULSE_PARAMS => handle_set_pulse_params m.payload st
    | .SET_VIBRATION => handle_set_vibration now m.payload st
    | .SET_PATTERN => handle_set_pattern now m.payload st
    | .SET_CALIBRATION => handle_set_calibration m.payload st
    | .PLAY => handle_play st
    | .STOP => handle_stop st
    | t => ⟨st, some ⟨.ERROR,
        .obj [("error", .str ("Unknown message type: " ++ t.value))], .num now⟩,
        [], none⟩
  match res.exn with
  | some e => ⟨res.st, some ⟨.ERROR, .obj [("error", .str e)], .num now⟩,
               res.calls, none⟩
  | none => res

/-! ## src/net/webserver/server.py -/

/-- Observable outcome of `WebUIServer._process_message` for one raw
inbound message (the connected handler is assumed present; the
`if not self._handler: return` guard is outside the modelled scope). -/
structure ProcResult where
  st : MWState
  sentToOrigin : List Message   -- messages sent on the originating websocket
  dispatched : Bool             -- whether handle_message was invoked
  broadcastState : Bool         -- whether _broadcast_state_update was invoked
  ownerCalls : List OwnerCall

/-- The message types after which `_process_message` broadcasts a full
state update to all clients. -/
def stateChangeTypes : List MessageType :=
  [.SET_VOLUME, .SET_CARRIER, .SET_PULSE_PARAMS, .SET_PATTERN,
   .SET_VIBRATION, .PLAY, .STOP]

/-- `WebUIServer._process_message`.  An `InvalidMessageException` from
decoding answers the origin with an ERROR message; any other exception
(e.g. the `TypeError` from decoding a non-object document) hits the
generic `except Exception` clause and answers with an "Internal error"
ERROR.  (The exact interpolated exception text is not modelled; no claim
inspects it.) -/
def process_message (now : ℚ) (raw : Option Json) (st : MWState) : ProcResult :=
  match Message.fromJson raw now with
  | .error .invalidMessage =>
    ⟨st, [⟨.ERROR, .obj [("error", .str "Failed to parse message")], .num now⟩],
     false, false, []⟩
  | .error .typeError =>
    ⟨st, [⟨.ERROR, .obj [("error", .str "Internal error")], .num now⟩],
     false, false, []⟩
  | .ok m =>
    let h := handle_message now m st
    ⟨h.st, h.response.toList, true, decide (m.type ∈ stateChangeTypes), h.calls⟩

/-- An entry of the `_ws_clients` registry; `sendOk = false` models a
websocket whose `send` raises. -/
structure WsClient where
  id : ℕ
  sendOk : Bool
deriving DecidableEq, Repr

/-- `await client.send(message)`. -/
def clientSend (c : WsClient) (_message : String) : Except String Unit :=
  if c.sendOk then .ok () else .error "ConnectionClosed"

/-- The send loop of `_broadcast_to_all` / `_broadcast_state_update`:
`try: await client.send(message) except Exception: pass`.  The failing
client is skipped and NOT discarded from `_ws_clients`.  Returns the ids
that received the message. -/
def sendAll (message : String) : List WsClient → List ℕ
  | [] => []
  | c :: rest =>
    match clientSend c message with
    | .ok _ => c.id :: sendAll message rest
    | .error _ => sendAll message rest   -- except Exception: pass

/-- `WebUIServer._broadcast_to_all`: iterates a copy of the registry and
returns (registry afterwards, ids that received the message).  The
function is total: no exception escapes. -/
def broadcast_to_all (clients : List WsClient) (message : String) :
    List WsClient × List ℕ :=
  (clients, sendAll message clients)

/-! ## src/net/remote_control.py -/

/-- State of `RemoteControlClient` relevant to the outbound send path.
`connections` holds the urls with a live (truthy) websocket object;
`connected` is the `_connected` set. -/
structure RCState where
  lastPositionSend : ℚ      -- milliseconds
  running : Bool
  hasLoop : Bool
  connections : List String
  connected : List String

/-- `self._position_throttle_ms = 33  # ~30Hz`. -/
def position_throttle_ms : ℚ := 33

/-- `RemoteControlClient._broadcast`: no-op without a loop or when
stopped; otherwise sends to every url in `_connections` that is also in
`_connected`; per-url send failures are logged and ignored. -/
def rc_broadcast (st : RCState) (msg : Json) : List (String × Json) :=
  if ¬ st.hasLoop ∨ ¬ st.running then []
  else (st.connections.filter (fun u => st.connected.contains u)).map
    (fun u => (u, msg))

/-- `RemoteControlClient.send_position`: drops the call when invoked less
than `_position_throttle_ms` after the last *transmitted* call (the
last-send time is only updated when the gate is passed); `now` is
`time.time() * 1000` at the call. -/
def send_position (st : RCState) (now alpha beta gamma : ℚ) :
    RCState × List (String × Json) :=
  if now - st.lastPositionSend < position_throttle_ms then (st, [])
  else
    let st' := {st with lastPositionSend := now}
    let msg : Json := .obj [("type", .str "set_position"),
      ("payload", .obj [("alpha", .num alpha), ("beta", .num beta),
                        ("gamma", .num gamma), ("interval", .num 0.1)])]
    (st', rc_broadcast st' msg)

/-! ### `RemoteControlClient._connect`: websocket address derivation

The Python code manipulates the url as a character string; to make the
universally quantified address-derivation claim provable the string
functions are embedded over `List Char`. -/

/-- Python `str.split(sep)` for a one-character separator. -/
def splitOnChar (sep : Char) : List Char → List (List Char)
  | [] => [[]]
  | c :: cs =>
    match splitOnChar sep cs with
    | [] => [[]]   -- unreachable: splitOnChar never returns []
    | h :: t => if c = sep then [] :: h :: t else (c :: h) :: t

/-- Python `sep.join(parts)` for list-of-characters strings. -/
def joinWith (sep : List Char) : List (List Char) → List Char
  | [] => []
  | [x] => x
  | x :: xs => x ++ sep ++ joinWith sep xs

/-- Python `s.rsplit(sep, 1)` as a pair, for inputs containing `sep`:
everything before the last separator, and everything after it. -/
def rsplitOnce (sep : Char) (s : List Char) : List Char × List Char :=
  let parts := splitOnChar sep s
  (joinWith [sep] parts.dropLast, parts.getLastD [])

/-- The ASCII whitespace stripped by Python's `int(str)`. -/
def isPySpace (c : Char) : Bool :=
  c == ' ' || c == '\t' || c == '\n' || c == '\r' || c == '\x0b' || c == '\x0c'

/-- `str.strip()` over characters. -/
def stripChars (s : List Char) : List Char :=
  ((s.dropWhile isPySpace).reverse.dropWhile isPySpace).reverse

def digitVal (c : Char) : ℕ := c.toNat - 48

/-- Digit run with Python's single-underscore-between-digits rule. -/
def parseDigitsCore (acc : ℕ) : List Char → Option ℕ
  | [] => some acc
  | c :: cs =>
    if c.isDigit then parseDigitsCore (10 * acc + digitVal c) cs
    else if c = '_' then
      match cs with
      | c2 :: cs2 =>
        if c2.isDigit then parseDigitsCore (10 * acc + digitVal c2) cs2 else none
      | [] => none
    else none

def parseDigits : List Char → Option ℕ
  | [] => none
  | c :: cs => if c.isDigit then parseDigitsCore (digitVal c) cs else none

/-- Python `int(s)` on a string: optional surrounding whitespace, optional
sign, base-10 digits; `none` models `ValueError`. -/
def pyInt? (s : List Char) : Option ℤ :=
  match stripChars s with
  | [] => none
  | c :: r =>
    if c = '+' then (parseDigits r).map (fun n => (n : ℤ))
    else if c = '-' then (parseDigits r).map (fun n => -(n : ℤ))
    else (parseDigits (c :: r)).map (fun n => (n : ℤ))

/-- The url rewrite at the top of `RemoteControlClient._connect`:
`http→ws` / `https→wss`, then port + 1 — but only when the final
`/`-segment of the rewritten url contains a `:`. -/
def derive_ws_url (url : List Char) : List Char :=
  let wsUrl :=
    if startsWithChars "http://".data url then "ws://".data ++ url.drop 7
    else if startsWithChars "https://".data url then "wss://".data ++ url.drop 8
    else url
  if ((splitOnChar '/' wsUrl).getLastD []).contains ':' then
    let parts := rsplitOnce ':' wsUrl
    match pyInt? ((splitOnChar '/' parts.2).headD []) with
    | some port => parts.1 ++ ':' :: (toString (port + 1)).data
    | none => wsUrl     -- except ValueError: pass
  else wsUrl

/-- String-level wrapper of `derive_ws_url`. -/
def derive_ws_url_str (s : String) : String := ⟨derive_ws_url s.data⟩

/-! ## Definitions used by the claim statements -/

/-- A raw inbound message whose `type` field is missing or not a member
of the `MessageType` enum: either the text does not parse as JSON, or it
parses to an object without a usable `type` key. -/
def typeMissingOrInvalid (raw : Option Json) : Bool :=
  match raw with
  | none => true
  | some (.obj d) =>
    match dictGet d "type" with
    | none => true
    | some tv => (MessageType.ofJson? tv).isNone
  | some _ => false

/-- The per-field effect of a SET_VIBRATION payload on the selected
channel's widget group: each provided field is stored, absent fields are
untouched. -/
def applyVibChannelParams (ch : VibChannel) (en : Option Bool)
    (fr strg lr hl rnd : Option ℚ) : VibChannel where
  enabled := en.getD ch.enabled
  frequency := fr.getD ch.frequency
  strength := strg.getD ch.strength
  leftRightBias := lr.getD ch.leftRightBias
  highLowBias := hl.getD ch.highLowBias
  random := rnd.getD ch.random

/-- Numeric value of a digit string. -/
def digitsToNat (l : List Char) : ℕ :=
  l.foldl (fun a c => 10 * a + digitVal c) 0

/-- Registry with a failing client in the middle. -/
def wsClients0 : List WsClient := [⟨0, true⟩, ⟨1, false⟩, ⟨2, true⟩]

/-- A running client connected to one peer, as left by `start()` plus a
successful `_connect`. -/
def rcState0 : RCState :=
  { lastPositionSend := 0, running := true, hasLoop := true,
    connections := ["http://peer:9000"], connected := ["http://peer:9000"] }

/-! ## Test fixtures -/

/-- A concrete main-window state used by the concrete-input theorems. -/
def mwState0 : MWState where
  playstate := .STOPPED
  alphaLast := 0
  betaLast := 0
  gammaLast := 0
  volume := 50
  volumeEffective := 1/2
  carrier := 700
  pulseCarrier := 700
  pulseFrequency := 50
  pulseWidth := 5
  pulseRiseTime := 5
  pulseIntervalRandom := 0
  vib1 := ⟨false, 20, 1, 0, 0, 0⟩
  vib2 := ⟨false, 20, 1, 0, 0, 0⟩
  patterns := ["Circle", "Line"]
  patternIndex := 0
  patternVelocity := 1
  calNeutral := 0
  calRight := 0
  calCenter := 0
  fpA := 1
  fpB := 1
  fpC := 1
  fpD := 1
  fpCenter := 1
  transformEnabled := 0
  transformRotation := 0
  transformMirror := 0
  deviceType := "THREE_PHASE"
  waveformType := "CONTINUOUS"

/-- `mwState0` with the signal already playing. -/
def mwPlaying : MWState := {mwState0 with playstate := .PLAYING}

theorem MessageType.ofValue?_value (t : MessageType) :
    MessageType.ofValue? t.value = some t := by
  cases t <;> rfl

/-! ## Claim C2: empty configured password disables authentication -/

/-- C2: for every auth header and username, if the configured password is
the empty string then `check_basic_auth` returns true, including for
absent or malformed credentials. -/
theorem auth_disabled_empty_password (auth_header username : String) :
    check_basic_auth auth_header username "" = true := rfl

/-! ## Claim C10: `check_basic_auth` is total -/

/-- C10: `check_basic_auth` always returns a boolean (every exception in
the credential-decoding path is caught and mapped to `False`), and with a
non-empty configured password any header that does not start with
`"Basic "` yields `false`. -/
theorem check_basic_auth_total (auth_header username password : String) :
    (check_basic_auth auth_header username password = true ∨
     check_basic_auth auth_header username password = false) ∧
    (password ≠ "" → startsWithChars "Basic ".data auth_header.data = false →
      check_basic_auth auth_header username password = false) := by
  refine ⟨Bool.eq_false_or_eq_true _, ?_⟩
  intro hp hs
  simp [check_basic_auth, hp, hs]

/-- Witness for C10 at a concrete malformed header. -/
theorem check_basic_auth_total_witness :
    check_basic_auth "Bearer abc" "user" "pw" = false :=
  (check_basic_auth_total "Bearer abc" "user" "pw").2 (by decide) (by decide)

/-! ## Claim C9: encode/decode round trip -/

/-- C9: for every message whose type is a `MessageType` member, whose
payload is a JSON dict and whose timestamp is a (finite) float, decoding
the encoding yields the same type, payload and timestamp. -/
theorem message_roundtrip (t : MessageType) (pl : List (String × Json))
    (ts now : ℚ) :
    Message.fromJson (some (Message.toJson ⟨t, .obj pl, .num ts⟩)) now
      = .ok ⟨t, .obj pl, .num ts⟩ := by
  simp [Message.toJson, Message.fromJson, dictGet, MessageType.ofJson?,
        MessageType.ofValue?_value, postInitTimestamp]

/-! ## Claim C1: unknown/missing `type` is rejected at decode time -/


/-- C1: for every inbound raw message whose `type` is missing or outside
the enum, decoding fails with `InvalidMessageException`, `handle_message`
is never invoked, state and state owner are untouched, no state broadcast
fires, and exactly one ERROR message goes back to the originating
session. -/
theorem decode_rejects_unknown_type (now : ℚ) (raw : Option Json)
    (st : MWState) (h : typeMissingOrInvalid raw = true) :
    Message.fromJson raw now = .error .invalidMessage ∧
    (process_message now raw st).dispatched = false ∧
    (process_message now raw st).broadcastState = false ∧
    (process_message now raw st).ownerCalls = [] ∧
    (process_message now raw st).st = st ∧
    (process_message now raw st).sentToOrigin.map Message.type
      = [MessageType.ERROR] := by
  rcases raw with _ | j
  · exact ⟨rfl, rfl, rfl, rfl, rfl, rfl⟩
  · cases j with
    | obj d =>
      rcases hd : dictGet d "type" with _ | tv
      · simp [Message.fromJson, process_message, hd]
      · have ht : MessageType.ofJson? tv = none := by
          simpa [typeMissingOrInvalid, hd, Option.isNone_iff_eq_none] using h
        simp [Message.fromJson, process_message, hd, ht]
    | null => simp [typeMissingOrInvalid] at h
    | bool b => simp [typeMissingOrInvalid] at h
    | num q => simp [typeMissingOrInvalid] at h
    | str s => simp [typeMissingOrInvalid] at h
    | arr l => simp [typeMissingOrInvalid] at h

/-- Witness for C1 at a concrete unknown-type message. -/
theorem decode_rejects_unknown_type_witness :
    Message.fromJson (some (.obj [("type", .str "bogus")])) 7
      = .error .invalidMessage ∧
    (process_message 7 (some (.obj [("type", .str "bogus")])) mwState0).dispatched
      = false :=
  have h := decode_rejects_unknown_type 7 (some (.obj [("type", .str "bogus")]))
    mwState0 rfl
  ⟨h.1, h.2.1⟩

/-! ## Claim C3: PLAY while already playing

The handler indeed skips `signal_start`, but `_process_message`
broadcasts a state update after *every* PLAY message, so the "no state
broadcast" half of the claim is false on the code. -/

/-- C3 counterexample: a PLAY message processed while the play state is
PLAYING triggers a state broadcast (the claim says it must not), even
though no state-owner call is made. -/
theorem play_while_playing_counterexample :
    (process_message 0 (some (.obj [("type", .str "play")])) mwPlaying).ownerCalls
      = [] ∧
    (process_message 0 (some (.obj [("type", .str "play")])) mwPlaying).broadcastState
      = true := ⟨rfl, rfl⟩

/-- C3 amended: dispatching PLAY while the play state is not STOPPED
makes no state-owner call (`signal_start`), leaves the state unchanged
and returns no response — but a full-state broadcast is still triggered
by the command, because `_process_message` broadcasts for every PLAY
message regardless of the play state. -/
theorem play_while_playing_amended (now ts : ℚ) (pl : Json) (st : MWState)
    (h : st.playstate ≠ PlayState.STOPPED) :
    (process_message now
        (some (.obj [("type", .str "play"), ("payload", pl), ("timestamp", .num ts)]))
        st).dispatched = true ∧
    (process_message now
        (some (.obj [("type", .str "play"), ("payload", pl), ("timestamp", .num ts)]))
        st).ownerCalls = [] ∧
    (process_message now
        (some (.obj [("type", .str "play"), ("payload", pl), ("timestamp", .num ts)]))
        st).st = st ∧
    (process_message now
        (some (.obj [("type", .str "play"), ("payload", pl), ("timestamp", .num ts)]))
        st).sentToOrigin = [] ∧
    (process_message now
        (some (.obj [("type", .str "play"), ("payload", pl), ("timestamp", .num ts)]))
        st).broadcastState = true := by
  simp [process_message, Message.fromJson, dictGet, MessageType.ofJson?,
        MessageType.ofValue?, postInitTimestamp, handle_message, handle_play,
        h, stateChangeTypes]

/-- Witness for the amended C3 at a concrete playing state. -/
theorem play_while_playing_amended_witness :
    (process_message 3
        (some (.obj [("type", .str "play"), ("payload", .obj []), ("timestamp", .num 1)]))
        mwPlaying).ownerCalls = [] ∧
    (process_message 3
        (some (.obj [("type", .str "play"), ("payload", .obj []), ("timestamp", .num 1)]))
        mwPlaying).broadcastState = true :=
  have h := play_while_playing_amended 3 1 (.obj []) mwPlaying
    (by simp [mwPlaying, mwState0])
  ⟨h.2.1, h.2.2.2.2⟩

/-! ## Claim C4: broadcast partial-failure isolation

The failing client's exception is swallowed and every other client still
receives the message — but the failing client is NOT removed from the
`_ws_clients` registry by the broadcast (it is only discarded when its
own connection handler terminates). -/


/-- C4 counterexample: with three registered sessions where session 1's
send fails, sessions 0 and 2 receive the message but session 1 is still
in the registry after the broadcast — the claimed removal does not
happen. -/
theorem broadcast_failed_send_counterexample :
    (broadcast_to_all wsClients0 "msg").2 = [0, 2] ∧
    ⟨1, false⟩ ∈ (broadcast_to_all wsClients0 "msg").1 := by
  exact ⟨rfl, by decide⟩

/-- The broadcast loop delivers to exactly the clients whose send
succeeds, in registry order. -/
theorem sendAll_eq_filter (message : String) (clients : List WsClient) :
    sendAll message clients = (clients.filter (·.sendOk)).map (·.id) := by
  induction clients with
  | nil => rfl
  | cons c rest ih =>
    cases h : c.sendOk <;> simp [sendAll, clientSend, h, ih]

/-- C4 amended: when the send to a registered session `K` fails, every
other session with a working send still receives the message and no
exception escapes the broadcast (it is total and returns normally) — but
`K` is not removed from the registry, which is returned unchanged. -/
theorem broadcast_failed_send_amended (clients : List WsClient)
    (message : String) (K : WsClient) (hK : K ∈ clients)
    (hfail : K.sendOk = false) :
    (∀ c ∈ clients, c.sendOk = true → c.id ∈ (broadcast_to_all clients message).2) ∧
    (broadcast_to_all clients message).1 = clients ∧
    K ∈ (broadcast_to_all clients message).1 := by
  refine ⟨?_, rfl, hK⟩
  intro c hc hok
  simp only [broadcast_to_all, sendAll_eq_filter]
  exact List.mem_map_of_mem _ (List.mem_filter.mpr ⟨hc, by simp [hok]⟩)

/-- Witness for the amended C4 at a concrete two-session registry. -/
theorem broadcast_failed_send_amended_witness :
    (5 : ℕ) ∈ (broadcast_to_all [⟨5, true⟩, ⟨6, false⟩] "m").2 ∧
    (⟨6, false⟩ : WsClient) ∈ (broadcast_to_all [⟨5, true⟩, ⟨6, false⟩] "m").1 :=
  have h := broadcast_failed_send_amended [⟨5, true⟩, ⟨6, false⟩] "m"
    ⟨6, false⟩ (by decide) rfl
  ⟨h.1 ⟨5, true⟩ (by decide) rfl, h.2.2⟩

/-! ## Claim C8: outbound position throttling

The throttle gate compares against the time of the last *transmitted*
call.  When the first of the two calls is itself dropped, a second call
less than 33 ms later can still transmit, so the claim needs the extra
hypothesis that the first call passed the gate. -/


/-- C8 counterexample: two `send_position` calls 20 ms apart (less than
the 33 ms throttle), at 20 ms and 40 ms after the last transmission: the
first call is dropped and the *second* transmits and updates the
last-send time — the opposite of the claimed "only the first call
transmits, the second is dropped". -/
theorem send_position_throttle_counterexample :
    (send_position rcState0 20 0 0 0).2.length = 0 ∧
    (send_position (send_position rcState0 20 0 0 0).1 40 0 0 0).2.length = 1 ∧
    (send_position (send_position rcState0 20 0 0 0).1 40 0 0 0).1.lastPositionSend
      = 40 := by
  have h1 : ((20 : ℚ) < 33) := by norm_num
  have h2 : ¬ ((40 : ℚ) < 33) := by norm_num
  refine ⟨?_, ?_, ?_⟩ <;>
    simp [send_position, rcState0, position_throttle_ms, rc_broadcast, h1, h2]

/-- A call inside the throttle interval returns immediately: nothing is
sent and the state (incl. `_last_position_send`) is untouched. -/
theorem send_position_dropped (st : RCState) (now a b g : ℚ)
    (h : now - st.lastPositionSend < position_throttle_ms) :
    send_position st now a b g = (st, []) := by
  simp [send_position, h]

/-- C8 amended: if the first call passes the throttle gate (and so
transmits), any second call made less than the 33 ms throttle interval
later is dropped: it transmits to no peer and leaves the client state —
in particular the last-send time — unchanged. -/
theorem send_position_throttle_amended (st : RCState)
    (t1 t2 a1 b1 g1 a2 b2 g2 : ℚ)
    (h1 : ¬ (t1 - st.lastPositionSend < position_throttle_ms))
    (h2 : t2 - t1 < position_throttle_ms) :
    (send_position st t1 a1 b1 g1).1.lastPositionSend = t1 ∧
    (send_position (send_position st t1 a1 b1 g1).1 t2 a2 b2 g2).2 = [] ∧
    (send_position (send_position st t1 a1 b1 g1).1 t2 a2 b2 g2).1
      = (send_position st t1 a1 b1 g1).1 := by
  have hlast : (send_position st t1 a1 b1 g1).1.lastPositionSend = t1 := by
    simp [send_position, if_neg h1]
  have hcond :
      t2 - (send_position st t1 a1 b1 g1).1.lastPositionSend
        < position_throttle_ms := by rw [hlast]; exact h2
  rw [send_position_dropped _ _ _ _ _ hcond]
  exact ⟨hlast, rfl, rfl⟩

/-- Witness for the amended C8 at concrete call times 100 ms and 120 ms. -/
theorem send_position_throttle_amended_witness :
    (send_position (send_position rcState0 100 0 0 0).1 120 0 0 0).2 = [] :=
  (send_position_throttle_amended rcState0 100 120 0 0 0 0 0 0
    (by simp [rcState0, position_throttle_ms]; norm_num)
    (by simp [position_throttle_ms]; norm_num)).2.1

/-! ## Claim C5: position and volume clamping -/

/-- C5: every provided SET_POSITION axis value is clamped to [-1, 1]
before being stored, and a provided SET_VOLUME value is clamped to
[0, 100] before being stored; absent fields leave the stored values
unchanged and no response or exception is produced. -/
theorem set_position_volume_clamped (now ts : ℚ) (st : MWState)
    (d : List (String × Json)) (a b g v : Option ℚ)
    (ha : dictGet d "alpha" = a.map Json.num)
    (hb : dictGet d "beta" = b.map Json.num)
    (hg : dictGet d "gamma" = g.map Json.num)
    (hv : dictGet d "value" = v.map Json.num) :
    ((handle_message now ⟨.SET_POSITION, .obj d, .num ts⟩ st).st.alphaLast
        = (match a with | some x => max (-1) (min 1 x) | none => st.alphaLast) ∧
     (handle_message now ⟨.SET_POSITION, .obj d, .num ts⟩ st).st.betaLast
        = (match b with | some x => max (-1) (min 1 x) | none => st.betaLast) ∧
     (handle_message now ⟨.SET_POSITION, .obj d, .num ts⟩ st).st.gammaLast
        = (match g with | some x => max (-1) (min 1 x) | none => st.gammaLast) ∧
     (handle_message now ⟨.SET_POSITION, .obj d, .num ts⟩ st).response = none) ∧
    ((handle_message now ⟨.SET_VOLUME, .obj d, .num ts⟩ st).st.volume
        = (match v with | some x => max 0 (min 100 x) | none => st.volume) ∧
     (handle_message now ⟨.SET_VOLUME, .obj d, .num ts⟩ st).response = none) := by
  rcases a with _ | a <;> rcases b with _ | b <;> rcases g with _ | g <;>
    rcases v with _ | v <;>
    simp [handle_message, handle_set_position, handle_set_volume,
          applyFloatFields, pyFloat?, ha, hb, hg, hv]

/-- Witness for C5 at the documented concrete inputs:
`alpha = 2.0` stores `1.0`, `beta = -5.0` stores `-1.0`,
`value = 150` stores `100`, `value = -10` stores `0`. -/
theorem set_position_volume_clamped_witness :
    (handle_message 0 ⟨.SET_POSITION,
        .obj [("alpha", .num 2), ("beta", .num (-5))], .num 0⟩ mwState0).st.alphaLast
      = 1 ∧
    (handle_message 0 ⟨.SET_POSITION,
        .obj [("alpha", .num 2), ("beta", .num (-5))], .num 0⟩ mwState0).st.betaLast
      = -1 ∧
    (handle_message 0 ⟨.SET_VOLUME,
        .obj [("value", .num 150)], .num 0⟩ mwState0).st.volume = 100 ∧
    (handle_message 0 ⟨.SET_VOLUME,
        .obj [("value", .num (-10))], .num 0⟩ mwState0).st.volume = 0 := by
  have h1 := set_position_volume_clamped 0 0 mwState0
    [("alpha", .num 2), ("beta", .num (-5))] (some 2) (some (-5)) none none
    rfl rfl rfl rfl
  have h2 := set_position_volume_clamped 0 0 mwState0
    [("value", .num 150)] none none none (some 150) rfl rfl rfl rfl
  have h3 := set_position_volume_clamped 0 0 mwState0
    [("value", .num (-10))] none none none (some (-10)) rfl rfl rfl rfl
  refine ⟨?_, ?_, ?_, ?_⟩
  · rw [h1.1.1]; norm_num
  · rw [h1.1.2.1]; norm_num
  · rw [h2.2.1]; norm_num
  · rw [h3.2.1]; norm_num

/-! ## Claim C6: vibration channel selection -/


/-- C6: a SET_VIBRATION payload whose channel is neither 1 nor 2 yields
an ERROR response and changes nothing; channel 1 (resp. 2) applies the
provided parameters to that channel's widgets only, leaving the other
channel — and the rest of the state — unchanged. -/
theorem set_vibration_channels (now ts : ℚ) (st : MWState)
    (d : List (String × Json)) (ch : Json) (en : Option Bool)
    (fr strg lr hl rnd : Option ℚ)
    (hch : dictGet d "channel" = some ch)
    (hen : dictGet d "enabled" = en.map Json.bool)
    (hfr : dictGet d "frequency" = fr.map Json.num)
    (hst : dictGet d "strength" = strg.map Json.num)
    (hlr : dictGet d "leftRightBias" = lr.map Json.num)
    (hhl : dictGet d "highLowBias" = hl.map Json.num)
    (hrn : dictGet d "random" = rnd.map Json.num) :
    (pyEqNum ch 1 = false → pyEqNum ch 2 = false →
      (handle_message now ⟨.SET_VIBRATION, .obj d, .num ts⟩ st).st = st ∧
      (handle_message now ⟨.SET_VIBRATION, .obj d, .num ts⟩ st).response.map
        Message.type = some .ERROR) ∧
    (pyEqNum ch 1 = true →
      (handle_message now ⟨.SET_VIBRATION, .obj d, .num ts⟩ st).st
        = {st with vib1 := applyVibChannelParams st.vib1 en fr strg lr hl rnd} ∧
      (handle_message now ⟨.SET_VIBRATION, .obj d, .num ts⟩ st).response = none) ∧
    (pyEqNum ch 2 = true →
      (handle_message now ⟨.SET_VIBRATION, .obj d, .num ts⟩ st).st
        = {st with vib2 := applyVibChannelParams st.vib2 en fr strg lr hl rnd} ∧
      (handle_message now ⟨.SET_VIBRATION, .obj d, .num ts⟩ st).response = none) := by
  refine ⟨fun h1 h2 => ?_, fun h1 => ?_, fun h2 => ?_⟩
  · simp [handle_message, handle_set_vibration, hch, h1, h2]
  · rcases en with _ | en <;> rcases fr with _ | fr <;> rcases strg with _ | strg <;>
      rcases lr with _ | lr <;> rcases hl with _ | hl <;> rcases rnd with _ | rnd <;>
      simp [handle_message, handle_set_vibration, applyFloatFields,
            applyVibChannelParams, pyFloat?, pyTruthy, hch, h1,
            hen, hfr, hst, hlr, hhl, hrn]
  · by_cases h1 : pyEqNum ch 1 = true
    · rcases ch with _ | cb | cq | cs | cl | co <;> simp [pyEqNum] at h1 h2 <;>
        simp_all
    · rcases en with _ | en <;> rcases fr with _ | fr <;> rcases strg with _ | strg <;>
        rcases lr with _ | lr <;> rcases hl with _ | hl <;> rcases rnd with _ | rnd <;>
        simp [handle_message, handle_set_vibration, applyFloatFields,
              applyVibChannelParams, pyFloat?, pyTruthy, hch, h1, h2,
              hen, hfr, hst, hlr, hhl, hrn]

/-- Witness for C6: `channel = 3` yields an ERROR and leaves the state
unchanged; `channel = 1` stores the provided frequency on channel 1 and
leaves channel 2 unchanged. -/
theorem set_vibration_channels_witness :
    (handle_message 0 ⟨.SET_VIBRATION, .obj [("channel", .num 3)], .num 0⟩
        mwState0).response.map Message.type = some .ERROR ∧
    (handle_message 0 ⟨.SET_VIBRATION, .obj [("channel", .num 3)], .num 0⟩
        mwState0).st = mwState0 ∧
    (handle_message 0 ⟨.SET_VIBRATION,
        .obj [("channel", .num 1), ("frequency", .num 25)], .num 0⟩
        mwState0).st.vib1.frequency = 25 ∧
    (handle_message 0 ⟨.SET_VIBRATION,
        .obj [("channel", .num 1), ("frequency", .num 25)], .num 0⟩
        mwState0).st.vib2 = mwState0.vib2 := by
  have h3 := set_vibration_channels 0 0 mwState0 [("channel", .num 3)]
    (.num 3) none none none none none none rfl rfl rfl rfl rfl rfl rfl
  have h1 := set_vibration_channels 0 0 mwState0
    [("channel", .num 1), ("frequency", .num 25)]
    (.num 1) none (some 25) none none none none rfl rfl rfl rfl rfl rfl rfl
  have e3 := h3.1 (by simp [pyEqNum]) (by simp [pyEqNum])
  have e1 := (h1.2.1 (by simp [pyEqNum])).1
  exact ⟨e3.2, e3.1, by rw [e1]; rfl, by rw [e1]⟩

/-! ## Claim C7: websocket address derivation

The port bump only fires when the final `/`-segment of the rewritten url
contains a `:`; a url with a path (even just a trailing slash) after the
port keeps its original port, refuting the unrestricted claim. -/

/-- C7 counterexample: `http://host:9000/` carries an explicit port, yet
the derived endpoint is `ws://host:9000/` — the port is not incremented
(the claim demands `ws://host:9001/`). -/
theorem derive_ws_url_counterexample :
    derive_ws_url_str "http://host:9000/" = "ws://host:9000/" ∧
    derive_ws_url_str "http://host:9000/" ≠ "ws://host:9001/" := by
  constructor
  · rfl
  · intro h
    have : ("ws://host:9000/" : String) = "ws://host:9001/" := by
      rw [← h]; rfl
    simp at this

theorem splitOnChar_ne_nil (sep : Char) (l : List Char) :
    splitOnChar sep l ≠ [] := by
  cases l with
  | nil => simp [splitOnChar]
  | cons c cs =>
    rcases h : splitOnChar sep cs with _ | ⟨hh, t⟩ <;>
      simp [splitOnChar, h] <;> split <;> simp

theorem splitOnChar_of_not_mem {sep : Char} {l : List Char}
    (h : sep ∉ l) : splitOnChar sep l = [l] := by
  induction l with
  | nil => rfl
  | cons c cs ih =>
    have hc : c ≠ sep := fun e => h (e ▸ List.mem_cons_self c cs)
    have hcs : sep ∉ cs := fun m => h (List.mem_cons_of_mem c m)
    simp [splitOnChar, ih hcs, hc]

theorem splitOnChar_append_sep {sep : Char} {l₁ : List Char}
    (l₂ : List Char) (h : sep ∉ l₁) :
    splitOnChar sep (l₁ ++ sep :: l₂) = l₁ :: splitOnChar sep l₂ := by
  induction l₁ with
  | nil =>
    rcases e : splitOnChar sep l₂ with _ | ⟨hh, t⟩
    · exact absurd e (splitOnChar_ne_nil sep l₂)
    · simp [splitOnChar, e]
  | cons c cs ih =>
    have hc : c ≠ sep := fun e => h (e ▸ List.mem_cons_self c cs)
    have hcs : sep ∉ cs := fun m => h (List.mem_cons_of_mem c m)
    rcases e : splitOnChar sep (cs ++ sep :: l₂) with _ | ⟨hh, t⟩
    · exact absurd e (splitOnChar_ne_nil sep _)
    · have step : splitOnChar sep (c :: (cs ++ sep :: l₂)) = (c :: hh) :: t := by
        simp [splitOnChar, e, hc]
      have ihe := ih hcs
      rw [e] at ihe
      injection ihe with ih1 ih2
      rw [List.cons_append, step, ih1, ih2]


theorem parseDigitsCore_digits {l : List Char}
    (h : ∀ c ∈ l, c.isDigit = true) (acc : ℕ) :
    parseDigitsCore acc l
      = some (l.foldl (fun a c => 10 * a + digitVal c) acc) := by
  induction l generalizing acc with
  | nil => rfl
  | cons c cs ih =>
    have hc : c.isDigit = true := h c (List.mem_cons_self c cs)
    have hcs : ∀ x ∈ cs, x.isDigit = true :=
      fun x m => h x (List.mem_cons_of_mem c m)
    rw [parseDigitsCore.eq_def]
    simp [hc, ih hcs]

theorem parseDigits_digits {l : List Char} (hne : l ≠ [])
    (h : ∀ c ∈ l, c.isDigit = true) :
    parseDigits l = some (digitsToNat l) := by
  cases l with
  | nil => exact absurd rfl hne
  | cons c cs =>
    have hc : c.isDigit = true := h c (List.mem_cons_self c cs)
    have hcs : ∀ x ∈ cs, x.isDigit = true :=
      fun x m => h x (List.mem_cons_of_mem c m)
    simp [parseDigits, hc, parseDigitsCore_digits hcs, digitsToNat,
          List.foldl_cons]

theorem digit_not_pyspace {c : Char} (h : c.isDigit = true) :
    isPySpace c = false := by
  rcases e : isPySpace c with _ | _
  · rfl
  · exfalso
    simp only [isPySpace, Bool.or_eq_true, beq_iff_eq] at e
    rcases e with ((((rfl | rfl) | rfl) | rfl) | rfl) | rfl <;> exact absurd h (by decide)

theorem dropWhile_pyspace_digits {l : List Char}
    (h : ∀ c ∈ l, c.isDigit = true) : l.dropWhile isPySpace = l := by
  cases l with
  | nil => rfl
  | cons c cs =>
    simp [List.dropWhile_cons,
          digit_not_pyspace (h c (List.mem_cons_self c cs))]

theorem stripChars_digits {l : List Char}
    (h : ∀ c ∈ l, c.isDigit = true) : stripChars l = l := by
  have h' : ∀ c ∈ l.reverse, c.isDigit = true := by
    intro c m; exact h c (List.mem_reverse.mp m)
  simp [stripChars, dropWhile_pyspace_digits h, dropWhile_pyspace_digits h']

theorem pyInt?_digits {l : List Char} (hne : l ≠ [])
    (h : ∀ c ∈ l, c.isDigit = true) :
    pyInt? l = some ((digitsToNat l : ℤ)) := by
  cases l with
  | nil => exact absurd rfl hne
  | cons c cs =>
    have hc : c.isDigit = true := h c (List.mem_cons_self c cs)
    have hplus : c ≠ '+' := fun e => by rw [e] at hc; exact absurd hc (by decide)
    have hminus : c ≠ '-' := fun e => by rw [e] at hc; exact absurd hc (by decide)
    simp only [pyInt?, stripChars_digits h]
    simp [hplus, hminus, parseDigits_digits hne h]

theorem startsWithChars_append (p l : List Char) :
    startsWithChars p (p ++ l) = true := by
  induction p with
  | nil => rfl
  | cons c cs ih => simp [startsWithChars, ih]

theorem not_mem_of_digits {l : List Char} {a : Char}
    (h : ∀ c ∈ l, c.isDigit = true) (ha : a.isDigit = false) : a ∉ l :=
  fun m => by rw [h a m] at ha; exact absurd ha (by decide)

/-- Splitting a scheme-authority-port url at `/` and at `:`: the shapes
used by the port-derivation branch of `_connect`. -/
theorem split_port_core (pre H P : List Char)
    (hpre1 : '/' ∉ pre) (hpre2 : ':' ∉ pre)
    (hH1 : '/' ∉ H) (hH2 : ':' ∉ H)
    (hP : ∀ c ∈ P, c.isDigit = true) :
    splitOnChar '/' (pre ++ ':' :: '/' :: '/' :: (H ++ ':' :: P))
      = [pre ++ [':'], [], H ++ ':' :: P] ∧
    splitOnChar ':' (pre ++ ':' :: '/' :: '/' :: (H ++ ':' :: P))
      = [pre, '/' :: '/' :: H, P] := by
  have hR : ('/' : Char) ∉ H ++ ':' :: P := by
    intro m
    rcases List.mem_append.mp m with m | m
    · exact hH1 m
    · rcases List.mem_cons.mp m with e | m
      · exact absurd e (by decide)
      · exact not_mem_of_digits hP (by decide) m
  have hPc : (':' : Char) ∉ P := not_mem_of_digits hP (by decide)
  constructor
  · have e1 : pre ++ ':' :: '/' :: '/' :: (H ++ ':' :: P)
        = (pre ++ [':']) ++ '/' :: ('/' :: (H ++ ':' :: P)) := by
      simp
    rw [e1, splitOnChar_append_sep _ (by simp [hpre1])]
    have e2 : ('/' :: (H ++ ':' :: P)) = [] ++ '/' :: (H ++ ':' :: P) := rfl
    rw [e2, splitOnChar_append_sep _ (by simp),
        splitOnChar_of_not_mem hR]
  · rw [splitOnChar_append_sep _ hpre2]
    have e3 : ('/' :: '/' :: (H ++ ':' :: P))
        = ('/' :: '/' :: H) ++ ':' :: P := by simp
    rw [e3, splitOnChar_append_sep _ (by simp [hH2]),
        splitOnChar_of_not_mem hPc]

/-- C7 amended: for every peer URL of the form `scheme://host:port` whose
explicit port lies in the final `/`-segment (no path after the
authority), the derived endpoint keeps the host, maps `http→ws` /
`https→wss` and uses port + 1; when the final segment carries no port,
derivation is skipped. -/
theorem derive_ws_url_amended :
    (∀ host portStr : List Char,
      '/' ∉ host → ':' ∉ host → portStr ≠ [] →
      (∀ c ∈ portStr, c.isDigit = true) →
      derive_ws_url ("http://".data ++ (host ++ ':' :: portStr))
        = "ws://".data ++
            (host ++ ':' :: (toString ((digitsToNat portStr : ℤ) + 1)).data) ∧
      derive_ws_url ("https://".data ++ (host ++ ':' :: portStr))
        = "wss://".data ++
            (host ++ ':' :: (toString ((digitsToNat portStr : ℤ) + 1)).data)) ∧
    (∀ host : List Char, '/' ∉ host → ':' ∉ host →
      derive_ws_url ("http://".data ++ host) = "ws://".data ++ host) := by
  constructor
  · intro host P h1 h2 h3 h4
    constructor
    · have hdrop : ("http://".data ++ (host ++ ':' :: P)).drop 7
          = host ++ ':' :: P := List.drop_left "http://".data _
      have hsp := split_port_core ['w', 's'] host P
        (by decide) (by decide) h1 h2 h4
      have hW : "ws://".data ++ (host ++ ':' :: P)
          = ['w', 's'] ++ ':' :: '/' :: '/' :: (host ++ ':' :: P) := rfl
      simp only [derive_ws_url, startsWithChars_append, if_true, hdrop, hW,
                 hsp.1, hsp.2, rsplitOnce]
      simp only [List.getLastD_cons, List.getLastD_nil, List.dropLast,
                 joinWith]
      rw [if_pos (by simp), splitOnChar_of_not_mem
            (@not_mem_of_digits P '/' h4 (by decide)),
          List.headD_cons, pyInt?_digits h3 h4]
      simp
    · have hdrop : ("https://".data ++ (host ++ ':' :: P)).drop 8
          = host ++ ':' :: P := List.drop_left "https://".data _
      have hns : startsWithChars "http://".data
          ("https://".data ++ (host ++ ':' :: P)) = false := rfl
      have hsp := split_port_core ['w', 's', 's'] host P
        (by decide) (by decide) h1 h2 h4
      have hW : "wss://".data ++ (host ++ ':' :: P)
          = ['w', 's', 's'] ++ ':' :: '/' :: '/' :: (host ++ ':' :: P) := rfl
      simp only [derive_ws_url, hns, Bool.false_eq_true, if_false,
                 startsWithChars_append, if_true, hdrop, hW,
                 hsp.1, hsp.2, rsplitOnce]
      simp only [List.getLastD_cons, List.getLastD_nil, List.dropLast,
                 joinWith]
      rw [if_pos (by simp), splitOnChar_of_not_mem
            (@not_mem_of_digits P '/' h4 (by decide)),
          List.headD_cons, pyInt?_digits h3 h4]
      simp
  · intro host h1 h2
    have hdrop : ("http://".data ++ host).drop 7 = host :=
      List.drop_left "http://".data _
    have hW : "ws://".data ++ host
        = (['w', 's', ':'] ++ [] ++ ['/'] ) ++ '/' :: host := by simp
    have hsplit : splitOnChar '/' ("ws://".data ++ host)
        = [['w', 's', ':'], [], host] := by
      have e1 : "ws://".data ++ host
          = ['w', 's', ':'] ++ '/' :: ('/' :: host) := rfl
      rw [e1, splitOnChar_append_sep _ (by decide)]
      have e2 : ('/' :: host) = [] ++ '/' :: host := rfl
      rw [e2, splitOnChar_append_sep _ (by simp),
          splitOnChar_of_not_mem h1]
    have hlast : (((splitOnChar '/' ("ws://".data ++ host)).getLastD []).contains ':')
        = false := by
      rw [hsplit]
      simp only [List.getLastD_cons, List.getLastD_nil]
      simpa using h2
    simp only [derive_ws_url, startsWithChars_append, if_true, hdrop, hlast,
               Bool.false_eq_true, if_false]

/-- Witness for the amended C7 at the documented concrete peer URLs. -/
theorem derive_ws_url_amended_witness :
    derive_ws_url_str "http://host:9000" = "ws://host:9001" ∧
    derive_ws_url_str "https://host:9000" = "wss://host:9001" := by
  have h := derive_ws_url_amended.1 "host".data "9000".data
    (by decide) (by decide) (by decide) (by decide)
  constructor
  · show (⟨derive_ws_url "http://host:9000".data⟩ : String) = "ws://host:9001"
    rw [show "http://host:9000".data
          = "http://".data ++ ("host".data ++ ':' :: "9000".data) from rfl, h.1]
    rfl
  · show (⟨derive_ws_url "https://host:9000".data⟩ : String) = "wss://host:9001"
    rw [show "https://host:9000".data
          = "https://".data ++ ("host".data ++ ':' :: "9000".data) from rfl, h.2]
    rfl

end Restim
